import Mathlib

/-!
Verification of the Florida property scraper (synthetic listing generator and
HTTP export adapter) against its specification.

The JavaScript source is shallowly embedded:
the process-wide random source (successive calls to the runtime random
function, each returning a value in the interval from 0 inclusive to 1
exclusive) is modelled as a stream of rationals indexed by draw position,
threaded through record construction in the exact order the source consumes
draws.  Machine floating point is modelled by exact rational arithmetic, and
the floor operation on numbers by the floor into the integers.  Wall-clock
fields of the source (the scrapedAt timestamp) are omitted from the record
model since no specified property mentions them.
-/

namespace Scraper

/-- A stream of random draws: draw number n has value r n. -/
def ValidRand (r : ℕ → ℚ) : Prop := ∀ n, 0 ≤ r n ∧ r n < 1

/-- Decimal digit character for a residue; used to render numbers. -/
def digitChar : ℕ → Char
  | 0 => '0'
  | 1 => '1'
  | 2 => '2'
  | 3 => '3'
  | 4 => '4'
  | 5 => '5'
  | 6 => '6'
  | 7 => '7'
  | 8 => '8'
  | _ => '9'

/-- Decimal digits of a natural number, with fuel for structural recursion. -/
def natDigits : ℕ → ℕ → List Char
  | 0, _ => []
  | fuel + 1, n => if n < 10 then [digitChar n] else natDigits fuel (n / 10) ++ [digitChar (n % 10)]

/-- Decimal rendering of a natural number, as the JS runtime renders integers. -/
def natToString (n : ℕ) : String := ⟨natDigits (n + 1) n⟩

/-- Decimal rendering of an integer. -/
def intToString : ℤ → String
  | Int.ofNat n => natToString n
  | Int.negSucc n => "-" ++ natToString (n + 1)

/-- JS rendering of the bathroom count, which is always a half-integer:
an integer renders with no fractional part, otherwise a trailing .5. -/
def halfToString (q : ℚ) : String :=
  if q.den = 1 then intToString q.num else intToString (Int.floor q) ++ ".5"

/-- Agent roster entry (scraper-standalone.cjs, agents array). -/
structure Agent where
  name : String
  phone : String
  email : String
  broker : String

/-- One priceHistory event. -/
structure PriceEvent where
  date : String
  price : ℤ
  event : String

/-- One taxHistory entry. -/
structure TaxEntry where
  year : ℤ
  value : ℤ
  tax : ℤ

/-- One schools entry. -/
structure School where
  name : String
  rating : ℤ
  distance : ℚ
  grades : String

/-- A generated property record (scraper-standalone.cjs, object pushed by
generateProperties).  latitude and longitude keep their exact numeric value;
the source formats them with toFixed(6).  scrapedAt (wall clock) is omitted. -/
structure Property where
  propertyId : String
  mlsId : String
  streetAddress : String
  city : String
  state : String
  zipCode : String
  latitude : ℚ
  longitude : ℚ
  price : ℤ
  bedrooms : ℤ
  bathrooms : ℚ
  sqft : ℤ
  lotSize : ℤ
  yearBuilt : ℤ
  propertyType : String
  listingStatus : String
  daysOnMarket : ℤ
  hoaFee : Option ℤ
  images : List String
  thumbnailUrl : String
  description : String
  agentName : String
  agentPhone : String
  agentEmail : String
  brokerName : String
  zestimate : ℤ
  rentZestimate : ℤ
  priceHistory : List PriceEvent
  taxHistory : List TaxEntry
  schools : List School
  dataSource : String
  isActive : Bool

/-- propertyTypes array of generateProperties. -/
def propertyTypes : List String := ["Single Family", "Condo", "Townhouse", "Multi-Family"]

/-- streets array of generateProperties. -/
def streets : List String :=
  ["Main St", "Oak Ave", "Palm Dr", "Lake View Blvd", "Sunset Way", "Beach Rd", "Pine St", "Maple Ave"]

/-- agents array of generateProperties. -/
def agents : List Agent :=
  [⟨"John Smith", "(407) 555-0101", "john.smith@realty.com", "Keller Williams"⟩,
   ⟨"Sarah Johnson", "(407) 555-0102", "sarah.j@remax.com", "RE/MAX"⟩,
   ⟨"Mike Davis", "(407) 555-0103", "mdavis@century21.com", "Century 21"⟩,
   ⟨"Emily Brown", "(407) 555-0104", "ebrown@coldwell.com", "Coldwell Banker"⟩]

/-- images array of each record. -/
def imagesList : List String :=
  ["https://images.unsplash.com/photo-1568605114967-8130f3a36994?w=800&q=80",
   "https://images.unsplash.com/photo-1570129477492-45c003edd2be?w=800&q=80",
   "https://images.unsplash.com/photo-1564013799919-ab600027ffc6?w=800&q=80",
   "https://images.unsplash.com/photo-1600596542815-ffad4c1539a9?w=800&q=80"]

/-- The hoaFee conditional of generateProperties: a coin draw at position
k+17 decides presence; when present the amount uses draw k+18.  Returns the
fee and the next free draw position (the source consumes the amount draw
only when the coin draw exceeds one half). -/
def hoaStep (r : ℕ → ℚ) (k : ℕ) : Option ℤ × ℕ :=
  if r (k + 17) > 0.5 then (some (Int.floor (r (k + 18) * 300) + 50), k + 19) else (none, k + 18)

/-- One iteration of the generation loop of generateProperties, starting at
draw position k.  Field expressions and draw order follow the source line by
line.  Returns the record and the next free draw position. -/
def mkProperty (r : ℕ → ℚ) (city : String) (k : ℕ) : Property × ℕ :=
  let beds : ℤ := 2 + Int.floor (r k * 4)
  let baths : ℚ := 1 + (Int.floor (r (k + 1) * 3) : ℚ) + (if r (k + 2) > 0.5 then (0.5 : ℚ) else 0)
  let sqft : ℤ := 1000 + Int.floor (r (k + 3) * 2500)
  let price : ℤ := Int.floor (((sqft : ℚ) * (150 + r (k + 4) * 150)) / 1000) * 1000
  let agent : Agent := agents.getD (Int.floor (r (k + 5) * 4)).toNat ⟨"", "", "", ""⟩
  let hoaPair := hoaStep r k
  let j := hoaPair.2
  (⟨"ZPID" ++ intToString (Int.floor (r (k + 6) * 100000000)),
    "MLS" ++ intToString (Int.floor (r (k + 7) * 1000000)),
    intToString (100 + Int.floor (r (k + 8) * 9900)) ++ " " ++ streets.getD (Int.floor (r (k + 9) * 8)).toNat (""),
    city,
    "FL",
    intToString (32700 + Int.floor (r (k + 10) * 1000)),
    28.5 + r (k + 11) * 0.5,
    -81.4 + r (k + 12) * 0.5,
    price,
    beds,
    baths,
    sqft,
    Int.floor ((sqft : ℚ) * (2 + r (k + 13) * 3)),
    1980 + Int.floor (r (k + 14) * 44),
    propertyTypes.getD (Int.floor (r (k + 15) * 4)).toNat (""),
    "FOR_SALE",
    Int.floor (r (k + 16) * 90),
    hoaPair.1,
    imagesList,
    "https://images.unsplash.com/photo-1568605114967-8130f3a36994?w=400&q=80",
    "Beautiful " ++ intToString beds ++ " bedroom, " ++ halfToString baths ++ " bathroom " ++
      (propertyTypes.getD (Int.floor (r j * 4)).toNat ("")).toLower ++ " in " ++ city ++
      ". This stunning property features " ++ intToString sqft ++
      " sq ft of living space with modern amenities, updated kitchen, and spacious living areas. Great location close to schools, shopping, and entertainment. " ++
      (if r (j + 1) > 0.5 then "Recently renovated with new appliances and flooring." else "Move-in ready with excellent curb appeal.") ++
      " Perfect for " ++ (if beds ≥ 4 then "large families" else "first-time buyers or investors") ++ ".",
    agent.name,
    agent.phone,
    agent.email,
    agent.broker,
    Int.floor ((price : ℚ) * (0.95 + r (j + 2) * 0.1)),
    Int.floor ((price : ℚ) * 0.006),
    [⟨"2024-11-01", price, "Listed for sale"⟩,
     ⟨"2024-10-15", Int.floor ((price : ℚ) * 1.05), "Price change"⟩],
    [⟨2024, Int.floor ((price : ℚ) * 0.85), Int.floor ((price : ℚ) * 0.012)⟩,
     ⟨2023, Int.floor ((price : ℚ) * 0.82), Int.floor ((price : ℚ) * 0.011)⟩],
    [⟨city ++ " Elementary School", 7 + Int.floor (r (j + 3) * 3), 0.5 + r (j + 4) * 2, "K-5"⟩,
     ⟨city ++ " Middle School", 6 + Int.floor (r (j + 5) * 4), 1 + r (j + 6) * 3, "6-8"⟩,
     ⟨city ++ " High School", 7 + Int.floor (r (j + 7) * 3), 2 + r (j + 8) * 4, "9-12"⟩],
    "sample-generator",
    true⟩,
   j + 9)

/-- The generation loop of generateProperties: n remaining iterations,
current draw position k.  Returns records in push order and the next free
draw position. -/
def genAux (r : ℕ → ℚ) (city : String) : ℕ → ℕ → List Property × ℕ
  | 0, k => ([], k)
  | n + 1, k =>
    let pk := mkProperty r city k
    let rest := genAux r city n pk.2
    (pk.1 :: rest.1, rest.2)

/-- generateProperties(city, count) of scraper-standalone.cjs.  The JS loop
runs while the index is below count, so a zero or negative count yields the
empty list; the integer count is an arbitrary JS integer. -/
def generateProperties (r : ℕ → ℚ) (city : String) (count : ℤ) : List Property :=
  (genAux r city count.toNat 0).1

/-! ## The HTTP export adapter (src/api/scrape-v2.js) -/

/-- The fixed 15-city roster of scrape-v2.js. -/
def CITIES : List String :=
  ["Orlando", "Tampa", "Daytona Beach", "St. Petersburg", "Clearwater",
   "Lakeland", "Kissimmee", "Port Orange", "Sanford", "Oviedo",
   "Winter Park", "Altamonte Springs", "Deltona", "Palm Coast", "Titusville"]

/-- An inbound HTTP request: method and the query parameters the adapter
reads.  A missing query parameter is none; a parameter present with an empty
value is some of the empty string (falsy in JS, like undefined). -/
structure Request where
  method : String
  city : Option String
  limit : Option String
  all : Option String
  format : Option String

/-- The response bodies the adapter can produce, shaped by the literal
objects of scrape-v2.js. -/
inductive ResBody where
  | empty : ResBody
  | err (msg : String) : ResBody
  | usage (msg : String) (usageSingle : String) (usageAll : String) : ResBody
  | ok (success : Bool) (count : ℕ) (city : String) (properties : List Property) : ResBody
  | csv (content : String) : ResBody

/-- An HTTP response: status, the explicitly set content headers (none for
JSON responses, whose content type the framework sets), and the body.
The CORS headers, set identically on every response, are not modelled. -/
structure Response where
  status : ℕ
  contentType : Option String
  contentDisposition : Option String
  body : ResBody

/-- Accumulate the decimal value of the leading digit characters. -/
def parseDigits : List Char → ℕ → ℕ
  | [], acc => acc
  | c :: cs, acc => if c.isDigit then parseDigits cs (acc * 10 + (c.toNat - 48)) else acc

/-- Whether a character list starts with a decimal digit. -/
def headIsDigit : List Char → Bool
  | [] => false
  | c :: _ => c.isDigit

/-- Drop leading whitespace characters, as parseInt does before reading. -/
def skipWhitespace : List Char → List Char
  | [] => []
  | c :: cs => if c.isWhitespace then skipWhitespace cs else c :: cs

/-- JS parseInt on a string in base 10: leading whitespace is skipped, an
optional sign is read, then the longest leading run of decimal digits; if no
digit follows, the result is NaN, modelled as none.  (Hexadecimal prefixes,
which parseInt also accepts, are outside the inputs this adapter documents
and are not modelled.) -/
def jsParseInt (s : String) : Option ℤ :=
  match skipWhitespace s.data with
  | [] => none
  | '-' :: rest => if headIsDigit rest then some (-(parseDigits rest 0 : ℤ)) else none
  | '+' :: rest => if headIsDigit rest then some (parseDigits rest 0) else none
  | c :: rest => if c.isDigit then some (parseDigits (c :: rest) 0) else none

/-- Truthiness of an optional string parameter: undefined and the empty
string are falsy. -/
def jsTruthy : Option String → Bool
  | none => false
  | some s => s != ""

/-- JS logical-or of an optional string against a default, as in the
expression choosing the response city. -/
def jsOr (o : Option String) (d : String) : String :=
  match o with
  | none => d
  | some s => if s = "" then d else s

/-- maxProperties of scrape-v2.js: parseInt(limit) with fallback 10.  The JS
fallback uses logical or, so both NaN and 0 fall back to 10; any other
integer, however large or negative, is kept. -/
def maxPropertiesOf (limit : String) : ℤ :=
  match jsParseInt limit with
  | none => 10
  | some n => if n = 0 then 10 else n

/-- The all-cities loop of scrape-v2.js: one generateProperties call per
roster entry in order, concatenated, threading the random stream position
across calls. -/
def genAll (r : ℕ → ℚ) : List String → ℤ → ℕ → List Property × ℕ
  | [], _, k => ([], k)
  | c :: cs, m, k =>
    let pk := genAux r c m.toNat k
    let rest := genAll r cs m pk.2
    (pk.1 ++ rest.1, rest.2)

/-- The selection step of scrape-v2.js: the all-cities branch when all is
the string true, the single-city branch when city is truthy, otherwise the
missing-parameter case (none). -/
def selectProps (r : ℕ → ℚ) (req : Request) (maxProperties : ℤ) : Option (List Property) :=
  if req.all = some ("true") then some (genAll r CITIES maxProperties 0).1
  else if jsTruthy req.city then some (generateProperties r (req.city.getD ("")) maxProperties)
  else none

/-- csvHeader of scrape-v2.js, trailing newline included. -/
def csvHeader : String :=
  "Property ID,MLS ID,Address,City,State,ZIP,Price,Beds,Baths,SqFt,Type,Year,Status\n"

/-- One CSV data row of scrape-v2.js: string fields double-quote-wrapped
verbatim with no escaping, numeric fields unquoted. -/
def propertyToCSVRow (p : Property) : String :=
  "\"" ++ p.propertyId ++ "\",\"" ++ p.mlsId ++ "\",\"" ++ p.streetAddress ++ "\",\"" ++
    p.city ++ "\",\"" ++ p.state ++ "\",\"" ++ p.zipCode ++ "\"," ++ intToString p.price ++
    "," ++ intToString p.bedrooms ++ "," ++ halfToString p.bathrooms ++ "," ++
    intToString p.sqft ++ ",\"" ++ p.propertyType ++ "\"," ++ intToString p.yearBuilt ++
    ",\"" ++ p.listingStatus ++ "\""

/-- The scrape-v2.js request handler. -/
def handler (r : ℕ → ℚ) (req : Request) : Response :=
  if req.method = "OPTIONS" then ⟨200, none, none, ResBody.empty⟩
  else if req.method ≠ "GET" then ⟨405, none, none, ResBody.err ("Method not allowed")⟩
  else
    let limit := req.limit.getD ("10")
    let format := req.format.getD ("json")
    let maxProperties := maxPropertiesOf limit
    match selectProps r req maxProperties with
    | none =>
      ⟨400, none, none,
       ResBody.usage ("Missing parameter") ("/api/scrape-v2?city=Orlando&limit=50")
         ("/api/scrape-v2?all=true&limit=10")⟩
    | some props =>
      if format = "csv" then
        ⟨200, some ("text/csv"),
         some ("attachment; filename=\"properties-" ++ jsOr req.city ("all") ++ ".csv\""),
         ResBody.csv (csvHeader ++ String.intercalate ("\n") (props.map propertyToCSVRow))⟩
      else
        ⟨200, none, none, ResBody.ok true props.length (jsOr req.city ("all")) props⟩

/-- The response city field, when the body is the JSON success envelope. -/
def bodyCity : ResBody → Option String
  | ResBody.ok _ _ c _ => some c
  | _ => none

/-- The response count field, when the body is the JSON success envelope. -/
def bodyCount : ResBody → Option ℕ
  | ResBody.ok _ n _ _ => some n
  | _ => none

/-- Number of comma-delimited fields of a CSV line. -/
def fieldCount (s : String) : ℕ := s.data.count ',' + 1

/-- No comma and no double quote occurs in the string: the condition under
which the unescaped CSV rendering keeps its column structure. -/
def noCommaQuote (s : String) : Prop := ∀ c ∈ s.data, c ≠ ',' ∧ c ≠ '"'

/-- All string fields rendered into a CSV row are free of embedded commas
and quotes. -/
def cleanFields (p : Property) : Prop :=
  noCommaQuote p.propertyId ∧ noCommaQuote p.mlsId ∧ noCommaQuote p.streetAddress ∧
    noCommaQuote p.city ∧ noCommaQuote p.state ∧ noCommaQuote p.zipCode ∧
    noCommaQuote p.propertyType ∧ noCommaQuote p.listingStatus

/-- The all-zero random stream, a concrete valid instance used to witness
the theorems below. -/
def r0 : ℕ → ℚ := fun _ => 0

/-- GET with all=true and limit 2. -/
def reqAll2 : Request := ⟨"GET", none, some ("2"), some ("true"), none⟩

/-- GET with neither a city nor the all flag. -/
def reqMissing : Request := ⟨"GET", none, none, none, none⟩

/-- GET for one Orlando record in CSV format. -/
def reqCsv1 : Request := ⟨"GET", some ("Orlando"), some ("1"), none, some ("csv")⟩

/-- GET with both all=true and a city parameter. -/
def reqBoth : Request := ⟨"GET", some ("Orlando"), some ("1"), some ("true"), none⟩

/-- GET for Orlando with limit 5, default format. -/
def reqJson5 : Request := ⟨"GET", some ("Orlando"), some ("5"), none, none⟩

/-- GET for Orlando with limit 0. -/
def reqZero : Request := ⟨"GET", some ("Orlando"), some ("0"), none, none⟩

/-- GET for Orlando with limit -5. -/
def reqNeg : Request := ⟨"GET", some ("Orlando"), some ("-5"), none, none⟩

/-! ## Basic lemmas about the random model and the generation loop -/

theorem r0_valid : ValidRand r0 := fun _ => ⟨le_refl 0, by norm_num [r0]⟩

theorem rand_floor_nonneg (q c : ℚ) (h0 : 0 ≤ q) (hc : 0 ≤ c) : 0 ≤ Int.floor (q * c) :=
  Int.floor_nonneg.mpr (mul_nonneg h0 hc)

theorem rand_floor_lt (q : ℚ) (m : ℕ) (h1 : q < 1) (hm : 0 < m) : Int.floor (q * m) < (m : ℤ) := by
  rw [Int.floor_lt]
  push_cast
  have hmq : (0 : ℚ) < m := by exact_mod_cast hm
  nlinarith

theorem genAux_length (r : ℕ → ℚ) (city : String) : ∀ n k, ((genAux r city n k).1).length = n := by
  intro n
  induction n with
  | zero => intro k; rfl
  | succ n ih => intro k; simp [genAux, ih]

theorem mem_genAux (r : ℕ → ℚ) (city : String) :
    ∀ n k p, p ∈ (genAux r city n k).1 → ∃ j, p = (mkProperty r city j).1 := by
  intro n
  induction n with
  | zero => intro k p hp; simp [genAux] at hp
  | succ n ih =>
    intro k p hp
    simp only [genAux] at hp
    rcases List.mem_cons.mp hp with h | h
    · exact ⟨k, h⟩
    · exact ih _ p h

theorem mkProperty_city (r : ℕ → ℚ) (city : String) (k : ℕ) :
    ((mkProperty r city k).1).city = city := rfl

theorem mkProperty_state (r : ℕ → ℚ) (city : String) (k : ℕ) :
    ((mkProperty r city k).1).state = "FL" := rfl

theorem genAux_map_city (r : ℕ → ℚ) (city : String) :
    ∀ n k, ((genAux r city n k).1).map (fun p => p.city) = List.replicate n city := by
  intro n
  induction n with
  | zero => intro k; rfl
  | succ n ih =>
    intro k
    simp [genAux, ih, List.replicate_succ, mkProperty_city]

theorem genAll_length (r : ℕ → ℚ) (m : ℤ) :
    ∀ (cs : List String) (k : ℕ), ((genAll r cs m k).1).length = cs.length * m.toNat := by
  intro cs
  induction cs with
  | nil => intro k; simp [genAll]
  | cons c cs ih =>
    intro k
    simp [genAll, genAux_length, ih]
    ring

theorem genAll_map_city (r : ℕ → ℚ) (m : ℤ) :
    ∀ (cs : List String) (k : ℕ),
      ((genAll r cs m k).1).map (fun p => p.city) =
        (cs.map (fun c => List.replicate m.toNat c)).flatten := by
  intro cs
  induction cs with
  | nil => intro k; rfl
  | cons c cs ih =>
    intro k
    simp [genAll, genAux_map_city, ih]

/-! ## Lemmas about the adapter control flow -/

theorem maxPropertiesOf_some (s : String) (L : ℤ) (hp : jsParseInt s = some L) (h0 : L ≠ 0) :
    maxPropertiesOf s = L := by
  simp [maxPropertiesOf, hp, h0]

theorem maxPropertiesOf_none (s : String) (hp : jsParseInt s = none) : maxPropertiesOf s = 10 := by
  simp [maxPropertiesOf, hp]

theorem maxPropertiesOf_zero (s : String) (hp : jsParseInt s = some 0) : maxPropertiesOf s = 10 := by
  simp [maxPropertiesOf, hp]

theorem selectProps_all (r : ℕ → ℚ) (req : Request) (m : ℤ) (ha : req.all = some ("true")) :
    selectProps r req m = some (genAll r CITIES m 0).1 := by
  simp [selectProps, ha]

theorem selectProps_city (r : ℕ → ℚ) (req : Request) (m : ℤ) (c : String)
    (ha : req.all ≠ some ("true")) (hc : req.city = some c) (hne : c ≠ "") :
    selectProps r req m = some (generateProperties r c m) := by
  simp [selectProps, ha, hc, jsTruthy, bne_iff_ne, hne]

theorem selectProps_none (r : ℕ → ℚ) (req : Request) (m : ℤ)
    (ha : req.all ≠ some ("true")) (hc : req.city = none) :
    selectProps r req m = none := by
  simp [selectProps, ha, hc, jsTruthy]

theorem handler_get_eq (r : ℕ → ℚ) (req : Request) (hm : req.method = "GET") :
    handler r req = (
      match selectProps r req (maxPropertiesOf (req.limit.getD ("10"))) with
      | none =>
        (⟨400, none, none,
          ResBody.usage ("Missing parameter") ("/api/scrape-v2?city=Orlando&limit=50")
            ("/api/scrape-v2?all=true&limit=10")⟩ : Response)
      | some props =>
        if req.format.getD ("json") = "csv" then
          ⟨200, some ("text/csv"),
           some ("attachment; filename=\"properties-" ++ jsOr req.city ("all") ++ ".csv\""),
           ResBody.csv (csvHeader ++ String.intercalate ("\n") (props.map propertyToCSVRow))⟩
        else
          ⟨200, none, none, ResBody.ok true props.length (jsOr req.city ("all")) props⟩) := by
  unfold handler
  rw [hm]
  rfl

theorem getD_json_ne_csv (o : Option String) (h : o ≠ some ("csv")) : o.getD ("json") ≠ "csv" := by
  cases o with
  | none => simp
  | some s =>
    simp only [Option.getD_some]
    intro hs
    exact h (by rw [hs])

theorem handler_usage (r : ℕ → ℚ) (req : Request) (hm : req.method = "GET")
    (hsel : selectProps r req (maxPropertiesOf (req.limit.getD ("10"))) = none) :
    handler r req =
      ⟨400, none, none,
       ResBody.usage ("Missing parameter") ("/api/scrape-v2?city=Orlando&limit=50")
         ("/api/scrape-v2?all=true&limit=10")⟩ := by
  rw [handler_get_eq r req hm, hsel]

theorem handler_json (r : ℕ → ℚ) (req : Request) (props : List Property)
    (hm : req.method = "GET")
    (hsel : selectProps r req (maxPropertiesOf (req.limit.getD ("10"))) = some props)
    (hf : req.format ≠ some ("csv")) :
    handler r req = ⟨200, none, none, ResBody.ok true props.length (jsOr req.city ("all")) props⟩ := by
  rw [handler_get_eq r req hm, hsel]
  simp [getD_json_ne_csv req.format hf]

theorem handler_csv (r : ℕ → ℚ) (req : Request) (props : List Property)
    (hm : req.method = "GET")
    (hsel : selectProps r req (maxPropertiesOf (req.limit.getD ("10"))) = some props)
    (hf : req.format = some ("csv")) :
    handler r req =
      ⟨200, some ("text/csv"),
       some ("attachment; filename=\"properties-" ++ jsOr req.city ("all") ++ ".csv\""),
       ResBody.csv (csvHeader ++ String.intercalate ("\n") (props.map propertyToCSVRow))⟩ := by
  rw [handler_get_eq r req hm, hsel]
  simp [hf]

/-! ## Lemmas about decimal rendering -/

theorem digitChar_valid (n : ℕ) : digitChar n ≠ ',' ∧ digitChar n ≠ '"' := by
  rcases n with _ | _ | _ | _ | _ | _ | _ | _ | _ | n
  · exact ⟨by decide, by decide⟩
  · exact ⟨by decide, by decide⟩
  · exact ⟨by decide, by decide⟩
  · exact ⟨by decide, by decide⟩
  · exact ⟨by decide, by decide⟩
  · exact ⟨by decide, by decide⟩
  · exact ⟨by decide, by decide⟩
  · exact ⟨by decide, by decide⟩
  · exact ⟨by decide, by decide⟩
  · exact ⟨(show ('9' : Char) ≠ ',' by decide), (show ('9' : Char) ≠ '"' by decide)⟩

theorem natDigits_valid (f : ℕ) : ∀ n, ∀ c ∈ natDigits f n, c ≠ ',' ∧ c ≠ '"' := by
  induction f with
  | zero => intro n c hc; simp [natDigits] at hc
  | succ f ih =>
    intro n c hc
    simp only [natDigits] at hc
    by_cases h : n < 10
    · rw [if_pos h] at hc
      simp at hc
      subst hc
      exact digitChar_valid n
    · rw [if_neg h] at hc
      rcases List.mem_append.mp hc with h1 | h1
      · exact ih _ c h1
      · simp at h1
        subst h1
        exact digitChar_valid _

theorem natToString_valid (n : ℕ) : ∀ c ∈ (natToString n).data, c ≠ ',' ∧ c ≠ '"' :=
  natDigits_valid (n + 1) n

theorem intToString_valid (i : ℤ) : ∀ c ∈ (intToString i).data, c ≠ ',' ∧ c ≠ '"' := by
  cases i with
  | ofNat n => exact natToString_valid n
  | negSucc n =>
    intro c hc
    rcases List.mem_cons.mp hc with h | h
    · subst h; exact ⟨by decide, by decide⟩
    · exact natToString_valid (n + 1) c h

theorem data_append (s t : String) : (s ++ t).data = s.data ++ t.data := rfl

theorem halfToString_valid (q : ℚ) : ∀ c ∈ (halfToString q).data, c ≠ ',' ∧ c ≠ '"' := by
  unfold halfToString
  by_cases h : q.den = 1
  · rw [if_pos h]
    exact intToString_valid q.num
  · rw [if_neg h]
    intro c hc
    rw [data_append] at hc
    rcases List.mem_append.mp hc with h1 | h1
    · exact intToString_valid (Int.floor q) c h1
    · simp at h1
      rcases h1 with h1 | h1 <;> (subst h1; exact ⟨by decide, by decide⟩)

theorem count_comma_zero (s : String) (h : ∀ c ∈ s.data, c ≠ ',' ∧ c ≠ '"') :
    s.data.count ',' = 0 :=
  List.count_eq_zero.mpr (fun hm => ((h ',' hm).1) rfl)

theorem natDigits_length (f : ℕ) :
    ∀ d n, 10 ^ d ≤ n → n < 10 ^ (d + 1) → d < f → (natDigits f n).length = d + 1 := by
  induction f with
  | zero => intro d n _ _ h3; omega
  | succ f ih =>
    intro d n h1 h2 h3
    simp only [natDigits]
    by_cases h : n < 10
    · rw [if_pos h]
      have hd : d = 0 := by
        by_contra hd
        have h10 : 10 ≤ 10 ^ d := by
          calc (10 : ℕ) = 10 ^ 1 := by norm_num
          _ ≤ 10 ^ d := Nat.pow_le_pow_right (by norm_num) (by omega)
        omega
      simp [hd]
    · rw [if_neg h]
      have hd : 1 ≤ d := by
        rcases Nat.eq_zero_or_pos d with h0 | h0
        · subst h0
          simp [pow_one] at h2
          omega
        · exact h0
      obtain ⟨e, rfl⟩ : ∃ e, d = e + 1 := ⟨d - 1, by omega⟩
      have hb1 : 10 ^ e ≤ n / 10 := by
        rw [Nat.le_div_iff_mul_le (by norm_num)]
        calc 10 ^ e * 10 = 10 ^ (e + 1) := by rw [pow_succ]
        _ ≤ n := h1
      have hb2 : n / 10 < 10 ^ (e + 1) := by
        rw [Nat.div_lt_iff_lt_mul (by norm_num)]
        calc n < 10 ^ (e + 1 + 1) := h2
        _ = 10 ^ (e + 1) * 10 := by rw [pow_succ]
      rw [List.length_append, ih e (n / 10) hb1 hb2 (by omega)]
      simp

theorem natToString_length5 (n : ℕ) (h1 : 10000 ≤ n) (h2 : n < 100000) :
    (natToString n).length = 5 := by
  show (natDigits (n + 1) n).length = 5
  have := natDigits_length (n + 1) 4 n (by norm_num; omega) (by norm_num; omega) (by omega)
  omega

theorem intToString_nonneg (i : ℤ) (h : 0 ≤ i) : intToString i = natToString i.toNat := by
  cases i with
  | ofNat n => rfl
  | negSucc n => exact absurd h (Int.negSucc_lt_zero n).not_le

/-! ## Per-record lemmas -/

theorem rand_floor_bound (q c : ℚ) (h0 : 0 ≤ q) (h1 : q < 1) (b : ℤ)
    (hb : c ≤ (b : ℚ) + 1) (hc : 0 < c) :
    0 ≤ Int.floor (q * c) ∧ Int.floor (q * c) ≤ b := by
  constructor
  · exact Int.floor_nonneg.mpr (mul_nonneg h0 (le_of_lt hc))
  · have hlt : q * c < (b : ℚ) + 1 := by nlinarith [mul_pos (sub_pos.mpr h1) hc]
    have h2 : Int.floor (q * c) < b + 1 := by
      rw [Int.floor_lt]
      push_cast
      linarith
    omega

theorem getD_mem {α : Type} (l : List α) (i : ℕ) (d : α) (h : i < l.length) : l.getD i d ∈ l := by
  induction l generalizing i with
  | nil => simp at h
  | cons a t ih =>
    cases i with
    | zero => simp [List.getD]
    | succ i =>
      simp only [List.getD_cons_succ]
      exact List.mem_cons_of_mem a (ih i (by simpa using h))

theorem mkProperty_fields (r : ℕ → ℚ) (hr : ValidRand r) (city : String) (k : ℕ)
    (p : Property) (hp : p = (mkProperty r city k).1) :
    (2 ≤ p.bedrooms ∧ p.bedrooms ≤ 5) ∧
    (1 ≤ p.bathrooms ∧ p.bathrooms ≤ 4 ∧ ∃ m : ℤ, p.bathrooms * 2 = (m : ℚ)) ∧
    (1000 ≤ p.sqft ∧ p.sqft ≤ 3500) ∧
    (1980 ≤ p.yearBuilt ∧ p.yearBuilt ≤ 2023) ∧
    (∃ z : ℕ, 32700 ≤ z ∧ z ≤ 33699 ∧ p.zipCode = natToString z ∧ (natToString z).length = 5) ∧
    p.propertyType ∈ ["Single Family", "Condo", "Townhouse", "Multi-Family"] := by
  subst hp
  obtain ⟨h0a, h1a⟩ := hr k
  obtain ⟨h0b, h1b⟩ := hr (k + 1)
  obtain ⟨h0s, h1s⟩ := hr (k + 3)
  obtain ⟨h0z, h1z⟩ := hr (k + 10)
  obtain ⟨h0y, h1y⟩ := hr (k + 14)
  obtain ⟨h0t, h1t⟩ := hr (k + 15)
  have hbed := rand_floor_bound (r k) 4 h0a h1a 3 (by norm_num) (by norm_num)
  have hbath := rand_floor_bound (r (k + 1)) 3 h0b h1b 2 (by norm_num) (by norm_num)
  have hsq := rand_floor_bound (r (k + 3)) 2500 h0s h1s 2499 (by norm_num) (by norm_num)
  have hzip := rand_floor_bound (r (k + 10)) 1000 h0z h1z 999 (by norm_num) (by norm_num)
  have hyr := rand_floor_bound (r (k + 14)) 44 h0y h1y 43 (by norm_num) (by norm_num)
  have htyp := rand_floor_bound (r (k + 15)) 4 h0t h1t 3 (by norm_num) (by norm_num)
  have hbathq : (0 : ℚ) ≤ (Int.floor (r (k + 1) * 3) : ℚ) ∧
      ((Int.floor (r (k + 1) * 3) : ℚ)) ≤ 2 :=
    ⟨by exact_mod_cast hbath.1, by exact_mod_cast hbath.2⟩
  have hite : (0 : ℚ) ≤ (if r (k + 2) > 0.5 then (0.5 : ℚ) else 0) ∧
      (if r (k + 2) > 0.5 then (0.5 : ℚ) else 0) ≤ 0.5 := by
    constructor <;> (split <;> norm_num)
  refine ⟨⟨?_, ?_⟩, ⟨?_, ?_, ?_⟩, ⟨?_, ?_⟩, ⟨?_, ?_⟩, ?_, ?_⟩
  · show (2 : ℤ) ≤ 2 + Int.floor (r k * 4)
    omega
  · show 2 + Int.floor (r k * 4) ≤ 5
    omega
  · show (1 : ℚ) ≤ 1 + (Int.floor (r (k + 1) * 3) : ℚ) + (if r (k + 2) > 0.5 then (0.5 : ℚ) else 0)
    linarith [hbathq.1, hite.1]
  · show 1 + (Int.floor (r (k + 1) * 3) : ℚ) + (if r (k + 2) > 0.5 then (0.5 : ℚ) else 0) ≤ 4
    linarith [hbathq.2, hite.2]
  · show ∃ m : ℤ,
      (1 + (Int.floor (r (k + 1) * 3) : ℚ) + (if r (k + 2) > 0.5 then (0.5 : ℚ) else 0)) * 2 = (m : ℚ)
    by_cases hcond : r (k + 2) > 0.5
    · refine ⟨2 * Int.floor (r (k + 1) * 3) + 3, ?_⟩
      rw [if_pos hcond]
      push_cast
      ring
    · refine ⟨2 * Int.floor (r (k + 1) * 3) + 2, ?_⟩
      rw [if_neg hcond]
      push_cast
      ring
  · show (1000 : ℤ) ≤ 1000 + Int.floor (r (k + 3) * 2500)
    omega
  · show 1000 + Int.floor (r (k + 3) * 2500) ≤ 3500
    omega
  · show (1980 : ℤ) ≤ 1980 + Int.floor (r (k + 14) * 44)
    omega
  · show 1980 + Int.floor (r (k + 14) * 44) ≤ 2023
    omega
  · refine ⟨(32700 + Int.floor (r (k + 10) * 1000)).toNat, by omega, by omega, ?_,
      natToString_length5 _ (by omega) (by omega)⟩
    show intToString (32700 + Int.floor (r (k + 10) * 1000)) = _
    exact intToString_nonneg _ (by omega)
  · show propertyTypes.getD (Int.floor (r (k + 15) * 4)).toNat ("") ∈
      ["Single Family", "Condo", "Townhouse", "Multi-Family"]
    exact getD_mem propertyTypes _ ("") (by have := htyp.1; have := htyp.2; simp [propertyTypes]; omega)

theorem mkProperty_derived (r : ℕ → ℚ) (hr : ValidRand r) (city : String) (k : ℕ)
    (p : Property) (hp : p = (mkProperty r city k).1) :
    p.rentZestimate = Int.floor ((p.price : ℚ) * 0.006) ∧
    (∃ f : ℚ, 0.95 ≤ f ∧ f ≤ 1.05 ∧ p.zestimate = Int.floor ((p.price : ℚ) * f)) ∧
    (∃ m : ℚ, 2 ≤ m ∧ m ≤ 5 ∧ p.lotSize = Int.floor ((p.sqft : ℚ) * m)) ∧
    (∃ e1 e2 : PriceEvent, p.priceHistory = [e1, e2] ∧ e1.price = p.price ∧
      e2.price = Int.floor ((p.price : ℚ) * 1.05)) ∧
    (∃ t1 t2 : TaxEntry, p.taxHistory = [t1, t2] ∧
      t1.value = Int.floor ((p.price : ℚ) * 0.85) ∧ t1.tax = Int.floor ((p.price : ℚ) * 0.012) ∧
      t2.value = Int.floor ((p.price : ℚ) * 0.82) ∧ t2.tax = Int.floor ((p.price : ℚ) * 0.011)) := by
  subst hp
  obtain ⟨h0z, h1z⟩ := hr ((hoaStep r k).2 + 2)
  obtain ⟨h0l, h1l⟩ := hr (k + 13)
  refine ⟨rfl, ⟨0.95 + r ((hoaStep r k).2 + 2) * 0.1, ?_, ?_, rfl⟩,
    ⟨2 + r (k + 13) * 3, ?_, ?_, rfl⟩, ⟨_, _, rfl, rfl, rfl⟩, ⟨_, _, rfl, rfl, rfl, rfl, rfl⟩⟩
  · have h := mul_nonneg h0z (show (0 : ℚ) ≤ 0.1 by norm_num)
    linarith
  · have h := mul_lt_mul_of_pos_right h1z (show (0 : ℚ) < 0.1 by norm_num)
    rw [one_mul] at h
    linarith
  · have h := mul_nonneg h0l (show (0 : ℚ) ≤ 3 by norm_num)
    linarith
  · have h := mul_lt_mul_of_pos_right h1l (show (0 : ℚ) < 3 by norm_num)
    rw [one_mul] at h
    linarith

/-! ## CSV counting lemmas -/

theorem csvHeader_fieldCount : fieldCount csvHeader = 13 := by decide

theorem row_fieldCount (p : Property) (hp : cleanFields p) :
    fieldCount (propertyToCSVRow p) = 13 := by
  obtain ⟨h1, h2, h3, h4, h5, h6, h7, h8⟩ := hp
  unfold fieldCount propertyToCSVRow
  simp only [data_append, List.count_append]
  rw [count_comma_zero _ h1, count_comma_zero _ h2, count_comma_zero _ h3,
    count_comma_zero _ h4, count_comma_zero _ h5, count_comma_zero _ h6,
    count_comma_zero _ h7, count_comma_zero _ h8,
    count_comma_zero _ (intToString_valid p.price),
    count_comma_zero _ (intToString_valid p.bedrooms),
    count_comma_zero _ (halfToString_valid p.bathrooms),
    count_comma_zero _ (intToString_valid p.sqft),
    count_comma_zero _ (intToString_valid p.yearBuilt)]
  decide

/-! ## The claims -/

/-- Claim C1: for every string city and every non-negative integer count,
generateProperties(city, count) returns an ordered sequence of exactly count
records without throwing (the embedding is a total function, so no run can
throw), and every record has its city field equal to the input city and its
state field equal to FL. -/
theorem C1_generate_count_city_state (r : ℕ → ℚ) (city : String) (count : ℤ)
    (h : 0 ≤ count) :
    ((generateProperties r city count).length : ℤ) = count ∧
    ∀ p ∈ generateProperties r city count, p.city = city ∧ p.state = "FL" := by
  constructor
  · show (((genAux r city count.toNat 0).1).length : ℤ) = count
    rw [genAux_length]
    omega
  · intro p hp
    obtain ⟨j, rfl⟩ := mem_genAux r city count.toNat 0 p hp
    exact ⟨mkProperty_city r city j, mkProperty_state r city j⟩

/-- Witness for C1: city Orlando, count 3, the all-zero random stream. -/
theorem C1_witness :
    (0 : ℤ) ≤ 3 ∧
    (((generateProperties r0 ("Orlando") 3).length : ℤ) = 3 ∧
      ∀ p ∈ generateProperties r0 ("Orlando") 3, p.city = "Orlando" ∧ p.state = "FL") :=
  ⟨by decide, C1_generate_count_city_state r0 ("Orlando") 3 (by decide)⟩

/-- Claim C2: for every record produced by generateProperties, the derived
fields are arithmetically consistent with the stored price and sqft:
rentZestimate is the floor of price times 0.006; zestimate is the floor of
price times some factor in the interval 0.95 to 1.05; lotSize is the floor
of sqft times some multiplier in the interval 2 to 5; the first priceHistory
entry carries the record price and the second the floor of price times 1.05;
and the two taxHistory entries carry the floors of price times 0.85, 0.012,
0.82 and 0.011 respectively. -/
theorem C2_derived_fields_consistent (r : ℕ → ℚ) (hr : ValidRand r) (city : String)
    (count : ℤ) (p : Property) (hp : p ∈ generateProperties r city count) :
    p.rentZestimate = Int.floor ((p.price : ℚ) * 0.006) ∧
    (∃ f : ℚ, 0.95 ≤ f ∧ f ≤ 1.05 ∧ p.zestimate = Int.floor ((p.price : ℚ) * f)) ∧
    (∃ m : ℚ, 2 ≤ m ∧ m ≤ 5 ∧ p.lotSize = Int.floor ((p.sqft : ℚ) * m)) ∧
    (∃ e1 e2 : PriceEvent, p.priceHistory = [e1, e2] ∧ e1.price = p.price ∧
      e2.price = Int.floor ((p.price : ℚ) * 1.05)) ∧
    (∃ t1 t2 : TaxEntry, p.taxHistory = [t1, t2] ∧
      t1.value = Int.floor ((p.price : ℚ) * 0.85) ∧ t1.tax = Int.floor ((p.price : ℚ) * 0.012) ∧
      t2.value = Int.floor ((p.price : ℚ) * 0.82) ∧ t2.tax = Int.floor ((p.price : ℚ) * 0.011)) := by
  obtain ⟨j, hj⟩ := mem_genAux r city count.toNat 0 p hp
  exact mkProperty_derived r hr city j p hj

/-- Witness for C2: the first record generated for Orlando from the all-zero
stream. -/
theorem C2_witness :
    ValidRand r0 ∧
    (mkProperty r0 ("Orlando") 0).1 ∈ generateProperties r0 ("Orlando") 1 ∧
    ((mkProperty r0 ("Orlando") 0).1.rentZestimate =
        Int.floor (((mkProperty r0 ("Orlando") 0).1.price : ℚ) * 0.006) ∧
      (∃ f : ℚ, 0.95 ≤ f ∧ f ≤ 1.05 ∧ (mkProperty r0 ("Orlando") 0).1.zestimate =
        Int.floor (((mkProperty r0 ("Orlando") 0).1.price : ℚ) * f)) ∧
      (∃ m : ℚ, 2 ≤ m ∧ m ≤ 5 ∧ (mkProperty r0 ("Orlando") 0).1.lotSize =
        Int.floor (((mkProperty r0 ("Orlando") 0).1.sqft : ℚ) * m)) ∧
      (∃ e1 e2 : PriceEvent, (mkProperty r0 ("Orlando") 0).1.priceHistory = [e1, e2] ∧
        e1.price = (mkProperty r0 ("Orlando") 0).1.price ∧
        e2.price = Int.floor (((mkProperty r0 ("Orlando") 0).1.price : ℚ) * 1.05)) ∧
      (∃ t1 t2 : TaxEntry, (mkProperty r0 ("Orlando") 0).1.taxHistory = [t1, t2] ∧
        t1.value = Int.floor (((mkProperty r0 ("Orlando") 0).1.price : ℚ) * 0.85) ∧
        t1.tax = Int.floor (((mkProperty r0 ("Orlando") 0).1.price : ℚ) * 0.012) ∧
        t2.value = Int.floor (((mkProperty r0 ("Orlando") 0).1.price : ℚ) * 0.82) ∧
        t2.tax = Int.floor (((mkProperty r0 ("Orlando") 0).1.price : ℚ) * 0.011))) :=
  ⟨r0_valid, List.Mem.head _,
    C2_derived_fields_consistent r0 r0_valid ("Orlando") 1 _ (List.Mem.head _)⟩

/-- Claim C3: every record produced by generateProperties satisfies the
field-range invariants: bedrooms between 2 and 5; bathrooms between 1 and 4
in half steps; sqft between 1000 and 3500; yearBuilt between 1980 and 2023;
zipCode a 5-digit decimal string with value between 32700 and 33699; and
propertyType one of the four fixed values. -/
theorem C3_field_range_invariants (r : ℕ → ℚ) (hr : ValidRand r) (city : String)
    (count : ℤ) (p : Property) (hp : p ∈ generateProperties r city count) :
    (2 ≤ p.bedrooms ∧ p.bedrooms ≤ 5) ∧
    (1 ≤ p.bathrooms ∧ p.bathrooms ≤ 4 ∧ ∃ m : ℤ, p.bathrooms * 2 = (m : ℚ)) ∧
    (1000 ≤ p.sqft ∧ p.sqft ≤ 3500) ∧
    (1980 ≤ p.yearBuilt ∧ p.yearBuilt ≤ 2023) ∧
    (∃ z : ℕ, 32700 ≤ z ∧ z ≤ 33699 ∧ p.zipCode = natToString z ∧ (natToString z).length = 5) ∧
    p.propertyType ∈ ["Single Family", "Condo", "Townhouse", "Multi-Family"] := by
  obtain ⟨j, hj⟩ := mem_genAux r city count.toNat 0 p hp
  exact mkProperty_fields r hr city j p hj

/-- Witness for C3: the first record generated for Orlando from the all-zero
stream. -/
theorem C3_witness :
    ValidRand r0 ∧
    (mkProperty r0 ("Orlando") 0).1 ∈ generateProperties r0 ("Orlando") 1 ∧
    ((2 ≤ (mkProperty r0 ("Orlando") 0).1.bedrooms ∧ (mkProperty r0 ("Orlando") 0).1.bedrooms ≤ 5) ∧
      (1 ≤ (mkProperty r0 ("Orlando") 0).1.bathrooms ∧ (mkProperty r0 ("Orlando") 0).1.bathrooms ≤ 4 ∧
        ∃ m : ℤ, (mkProperty r0 ("Orlando") 0).1.bathrooms * 2 = (m : ℚ)) ∧
      (1000 ≤ (mkProperty r0 ("Orlando") 0).1.sqft ∧ (mkProperty r0 ("Orlando") 0).1.sqft ≤ 3500) ∧
      (1980 ≤ (mkProperty r0 ("Orlando") 0).1.yearBuilt ∧
        (mkProperty r0 ("Orlando") 0).1.yearBuilt ≤ 2023) ∧
      (∃ z : ℕ, 32700 ≤ z ∧ z ≤ 33699 ∧ (mkProperty r0 ("Orlando") 0).1.zipCode = natToString z ∧
        (natToString z).length = 5) ∧
      (mkProperty r0 ("Orlando") 0).1.propertyType ∈
        ["Single Family", "Condo", "Townhouse", "Multi-Family"]) :=
  ⟨r0_valid, List.Mem.head _,
    C3_field_range_invariants r0 r0_valid ("Orlando") 1 _ (List.Mem.head _)⟩

/-- Claim C4: for every GET request with all=true and a limit parsing to a
positive integer L, the adapter invokes the synthesizer once per roster
entry in declaration order and concatenates in that order: the selected
sequence has length 15 times L and its city projection is the roster-order
concatenation of L copies of each roster city; with the default JSON format
that sequence is returned in the envelope. -/
theorem C4_all_cities_roster_order (r : ℕ → ℚ) (req : Request) (L : ℤ)
    (hm : req.method = "GET") (ha : req.all = some ("true"))
    (hl : jsParseInt (req.limit.getD ("10")) = some L) (hpos : 0 < L) :
    ∃ props : List Property,
      selectProps r req (maxPropertiesOf (req.limit.getD ("10"))) = some props ∧
      (props.length : ℤ) = 15 * L ∧
      props.map (fun p => p.city) = (CITIES.map (fun c => List.replicate L.toNat c)).flatten ∧
      (req.format ≠ some ("csv") →
        handler r req =
          ⟨200, none, none, ResBody.ok true props.length (jsOr req.city ("all")) props⟩) := by
  have hmax : maxPropertiesOf (req.limit.getD ("10")) = L :=
    maxPropertiesOf_some _ L hl (by omega)
  have hsel : selectProps r req (maxPropertiesOf (req.limit.getD ("10"))) =
      some (genAll r CITIES L 0).1 := by
    rw [hmax]
    exact selectProps_all r req L ha
  refine ⟨(genAll r CITIES L 0).1, hsel, ?_, ?_, ?_⟩
  · rw [genAll_length]
    have h15 : CITIES.length = 15 := rfl
    rw [h15]
    push_cast
    omega
  · exact genAll_map_city r L CITIES 0
  · intro hf
    exact handler_json r req _ hm hsel hf

/-- Witness for C4: all=true with limit 2 on the all-zero stream. -/
theorem C4_witness :
    reqAll2.method = "GET" ∧ reqAll2.all = some ("true") ∧
    jsParseInt (reqAll2.limit.getD ("10")) = some 2 ∧ (0 : ℤ) < 2 ∧
    (∃ props : List Property,
      selectProps r0 reqAll2 (maxPropertiesOf (reqAll2.limit.getD ("10"))) = some props ∧
      (props.length : ℤ) = 15 * 2 ∧
      props.map (fun p => p.city) =
        (CITIES.map (fun c => List.replicate (2 : ℤ).toNat c)).flatten ∧
      (reqAll2.format ≠ some ("csv") →
        handler r0 reqAll2 =
          ⟨200, none, none, ResBody.ok true props.length (jsOr reqAll2.city ("all")) props⟩)) :=
  ⟨rfl, rfl, by decide, by decide,
   C4_all_cities_roster_order r0 reqAll2 2 rfl rfl (by decide) (by decide)⟩

/-- Claim C5: for every GET request in which neither a city parameter nor
all=true is present, the adapter responds with HTTP 400 and a body carrying
a usage field that spells both supported query shapes, rather than
defaulting to some city. -/
theorem C5_missing_selection_usage_error (r : ℕ → ℚ) (req : Request)
    (hm : req.method = "GET") (hc : req.city = none) (ha : req.all ≠ some ("true")) :
    handler r req =
      ⟨400, none, none,
       ResBody.usage ("Missing parameter") ("/api/scrape-v2?city=Orlando&limit=50")
         ("/api/scrape-v2?all=true&limit=10")⟩ :=
  handler_usage r req hm (selectProps_none r req _ ha hc)

/-- Witness for C5: a GET request with no query parameters. -/
theorem C5_witness :
    reqMissing.method = "GET" ∧ reqMissing.city = none ∧ reqMissing.all ≠ some ("true") ∧
    handler r0 reqMissing =
      ⟨400, none, none,
       ResBody.usage ("Missing parameter") ("/api/scrape-v2?city=Orlando&limit=50")
         ("/api/scrape-v2?all=true&limit=10")⟩ :=
  ⟨rfl, rfl, by decide,
   C5_missing_selection_usage_error r0 reqMissing rfl rfl (by decide)⟩

/-- Claim C6: for every successful GET request with format csv, the response
is HTTP 200 with content type text/csv and an attachment filename formed
from the city parameter or the token all; the body is the fixed 13-column
header followed by one row per record in sequence order, with numeric
fields unquoted and other fields quote-wrapped verbatim; and every data row
of a record whose string fields hold no embedded comma or quote has exactly
as many comma-delimited fields as the header. -/
theorem C6_csv_export_shape (r : ℕ → ℚ) (req : Request) (props : List Property)
    (hm : req.method = "GET") (hf : req.format = some ("csv"))
    (hsel : selectProps r req (maxPropertiesOf (req.limit.getD ("10"))) = some props) :
    handler r req =
      ⟨200, some ("text/csv"),
       some ("attachment; filename=\"properties-" ++ jsOr req.city ("all") ++ ".csv\""),
       ResBody.csv (csvHeader ++ String.intercalate ("\n") (props.map propertyToCSVRow))⟩ ∧
    fieldCount csvHeader = 13 ∧
    ∀ p ∈ props, cleanFields p → fieldCount (propertyToCSVRow p) = 13 :=
  ⟨handler_csv r req props hm hsel hf, csvHeader_fieldCount, fun p _ hc => row_fieldCount p hc⟩

/-- Witness for C6: one Orlando record exported as CSV. -/
theorem C6_witness :
    reqCsv1.method = "GET" ∧ reqCsv1.format = some ("csv") ∧
    selectProps r0 reqCsv1 (maxPropertiesOf (reqCsv1.limit.getD ("10"))) =
      some (generateProperties r0 ("Orlando") (maxPropertiesOf ("1"))) ∧
    (handler r0 reqCsv1 =
      ⟨200, some ("text/csv"),
       some ("attachment; filename=\"properties-" ++ jsOr reqCsv1.city ("all") ++ ".csv\""),
       ResBody.csv (csvHeader ++ String.intercalate ("\n")
         ((generateProperties r0 ("Orlando") (maxPropertiesOf ("1"))).map propertyToCSVRow))⟩ ∧
     fieldCount csvHeader = 13 ∧
     ∀ p ∈ generateProperties r0 ("Orlando") (maxPropertiesOf ("1")),
       cleanFields p → fieldCount (propertyToCSVRow p) = 13) :=
  ⟨rfl, rfl, rfl, C6_csv_export_shape r0 reqCsv1 _ rfl rfl rfl⟩

/-- Counterexample for C7 as stated: the request with all=true together with
city=Orlando is served in all-cities mode (15 records for limit 1, one per
roster entry), yet the response city field is Orlando, not the literal
token all, because the code chooses the city parameter first when present. -/
theorem C7_counterexample_city_with_all :
    (handler r0 reqBoth).status = 200 ∧
    bodyCount (handler r0 reqBoth).body = some 15 ∧
    bodyCity (handler r0 reqBoth).body = some ("Orlando") := by
  have hmax : maxPropertiesOf (reqBoth.limit.getD ("10")) = 1 := rfl
  have hsel : selectProps r0 reqBoth (maxPropertiesOf (reqBoth.limit.getD ("10"))) =
      some (genAll r0 CITIES 1 0).1 := by
    rw [hmax]
    exact selectProps_all r0 reqBoth 1 rfl
  rw [handler_json r0 reqBoth _ rfl hsel (by decide)]
  refine ⟨rfl, ?_, rfl⟩
  show some ((genAll r0 CITIES 1 0).1.length) = some 15
  rw [genAll_length]
  rfl

/-- Claim C7 (amended): for every successful GET request whose format is not
csv, the response is HTTP 200 with the envelope success true, count equal to
the length of the properties array, and city equal to the city query
parameter whenever one is present and non-empty, falling back to the
literal token all only when no city parameter was supplied, even in
all-cities mode. -/
theorem C7_json_envelope_amended (r : ℕ → ℚ) (req : Request) (props : List Property)
    (hm : req.method = "GET") (hf : req.format ≠ some ("csv"))
    (hsel : selectProps r req (maxPropertiesOf (req.limit.getD ("10"))) = some props) :
    handler r req =
      ⟨200, none, none, ResBody.ok true props.length (jsOr req.city ("all")) props⟩ :=
  handler_json r req props hm hsel hf

/-- Witness for C7: Orlando with limit 5 in the default JSON format. -/
theorem C7_witness :
    reqJson5.method = "GET" ∧ reqJson5.format ≠ some ("csv") ∧
    selectProps r0 reqJson5 (maxPropertiesOf (reqJson5.limit.getD ("10"))) =
      some (generateProperties r0 ("Orlando") (maxPropertiesOf ("5"))) ∧
    handler r0 reqJson5 =
      ⟨200, none, none,
       ResBody.ok true (generateProperties r0 ("Orlando") (maxPropertiesOf ("5"))).length
         (jsOr reqJson5.city ("all")) (generateProperties r0 ("Orlando") (maxPropertiesOf ("5")))⟩ :=
  ⟨rfl, by decide, rfl, C7_json_envelope_amended r0 reqJson5 _ rfl (by decide) rfl⟩

/-- Claim C8: the adapter parses the limit parameter with parseInt; an
absent limit uses the default string 10 and a non-numeric limit falls back
to 10; no upper bound is enforced, and any positive parsed limit is passed
unmodified to the synthesizer, so the response count equals it. -/
theorem C8_limit_parsing_no_cap (r : ℕ → ℚ) (req : Request) (c s : String) (L : ℤ)
    (hm : req.method = "GET") (hc : req.city = some c) (hcne : c ≠ "")
    (ha : req.all ≠ some ("true")) (hf : req.format ≠ some ("csv"))
    (hl : req.limit = some s) (hp : jsParseInt s = some L) (hpos : 0 < L) :
    maxPropertiesOf s = L ∧
    bodyCount (handler r req).body = some L.toNat ∧
    maxPropertiesOf ("10") = 10 ∧
    (∀ t : String, jsParseInt t = none → maxPropertiesOf t = 10) := by
  have hmax : maxPropertiesOf s = L := maxPropertiesOf_some s L hp (by omega)
  refine ⟨hmax, ?_, rfl, fun t ht => maxPropertiesOf_none t ht⟩
  have hsel := selectProps_city r req (maxPropertiesOf (req.limit.getD ("10"))) c ha hc hcne
  rw [handler_json r req _ hm hsel hf]
  show some ((generateProperties r c (maxPropertiesOf (req.limit.getD ("10")))).length) =
    some L.toNat
  rw [hl]
  simp only [Option.getD_some]
  rw [hmax]
  show some ((genAux r c L.toNat 0).1.length) = some L.toNat
  rw [genAux_length]

/-- Witness for C8: Orlando with limit 5. -/
theorem C8_witness :
    reqJson5.method = "GET" ∧ reqJson5.city = some ("Orlando") ∧ "Orlando" ≠ "" ∧
    reqJson5.all ≠ some ("true") ∧ reqJson5.format ≠ some ("csv") ∧
    reqJson5.limit = some ("5") ∧ jsParseInt ("5") = some 5 ∧ (0 : ℤ) < 5 ∧
    (maxPropertiesOf ("5") = 5 ∧
      bodyCount (handler r0 reqJson5).body = some (5 : ℤ).toNat ∧
      maxPropertiesOf ("10") = 10 ∧
      (∀ t : String, jsParseInt t = none → maxPropertiesOf t = 10)) :=
  ⟨rfl, rfl, by decide, by decide, by decide, rfl, by decide, by decide,
   C8_limit_parsing_no_cap r0 reqJson5 ("Orlando") ("5") 5 rfl rfl (by decide) (by decide)
     (by decide) rfl (by decide) (by decide)⟩

/-- Counterexample for C9 as stated: C9 concludes that a client cannot
obtain exactly zero records through the HTTP interface, but limit=-5 parses
to -5, which is truthy and reaches the generator, yielding a successful
HTTP 200 response with exactly zero records. -/
theorem C9_counterexample_zero_records :
    jsParseInt ("-5") = some (-5) ∧
    (handler r0 reqNeg).status = 200 ∧
    bodyCount (handler r0 reqNeg).body = some 0 := by
  have hsel := selectProps_city r0 reqNeg (maxPropertiesOf (reqNeg.limit.getD ("10")))
    ("Orlando") (by decide) rfl (by decide)
  rw [handler_json r0 reqNeg _ rfl hsel (by decide)]
  refine ⟨by decide, rfl, ?_⟩
  show some ((genAux r0 ("Orlando") ((-5 : ℤ)).toNat 0).1.length) = some 0
  rw [genAux_length]
  rfl

/-- Claim C9 (amended): a limit parameter that parses to 0 is treated as if
absent, because the parseInt fallback treats 0 as falsy: the adapter uses
the default of 10 and returns 10 records for the selected city, so limit=0
cannot request exactly zero records; zero records remain reachable through a
negative limit. -/
theorem C9_limit_zero_defaults_to_ten (r : ℕ → ℚ) (req : Request) (c s : String)
    (hm : req.method = "GET") (hc : req.city = some c) (hcne : c ≠ "")
    (ha : req.all ≠ some ("true")) (hf : req.format ≠ some ("csv"))
    (hl : req.limit = some s) (hp : jsParseInt s = some 0) :
    maxPropertiesOf s = 10 ∧ bodyCount (handler r req).body = some 10 := by
  have hmax := maxPropertiesOf_zero s hp
  refine ⟨hmax, ?_⟩
  have hsel := selectProps_city r req (maxPropertiesOf (req.limit.getD ("10"))) c ha hc hcne
  rw [handler_json r req _ hm hsel hf]
  show some ((generateProperties r c (maxPropertiesOf (req.limit.getD ("10")))).length) = some 10
  rw [hl]
  simp only [Option.getD_some]
  rw [hmax]
  show some ((genAux r c (10 : ℤ).toNat 0).1.length) = some 10
  rw [genAux_length]
  rfl

/-- Witness for C9: Orlando with limit 0 yields 10 records. -/
theorem C9_witness :
    reqZero.method = "GET" ∧ reqZero.city = some ("Orlando") ∧ "Orlando" ≠ "" ∧
    reqZero.all ≠ some ("true") ∧ reqZero.format ≠ some ("csv") ∧
    reqZero.limit = some ("0") ∧ jsParseInt ("0") = some 0 ∧
    (maxPropertiesOf ("0") = 10 ∧ bodyCount (handler r0 reqZero).body = some 10) :=
  ⟨rfl, rfl, by decide, by decide, by decide, rfl, by decide,
   C9_limit_zero_defaults_to_ten r0 reqZero ("Orlando") ("0") rfl rfl (by decide) (by decide)
     (by decide) rfl (by decide)⟩

/-- Claim C10: for every string city and negative integer count,
generateProperties returns the empty sequence without throwing, and a
negative HTTP limit such as -5, which parseInt accepts, produces a
successful HTTP 200 response with count 0 and an empty properties array. -/
theorem C10_negative_count_empty (r : ℕ → ℚ) (city : String) (count : ℤ)
    (hneg : count < 0) (req : Request) (c s : String) (m : ℤ)
    (hm : req.method = "GET") (hc : req.city = some c) (hcne : c ≠ "")
    (ha : req.all ≠ some ("true")) (hf : req.format ≠ some ("csv"))
    (hl : req.limit = some s) (hp : jsParseInt s = some m) (hmneg : m < 0) :
    generateProperties r city count = [] ∧
    handler r req = ⟨200, none, none, ResBody.ok true 0 c []⟩ := by
  have hempty : ∀ (ct : String) (cc : ℤ), cc < 0 → generateProperties r ct cc = [] := by
    intro ct cc hcc
    show (genAux r ct cc.toNat 0).1 = []
    rw [show cc.toNat = 0 from by omega]
    rfl
  constructor
  · exact hempty city count hneg
  · have hmax : maxPropertiesOf s = m := maxPropertiesOf_some s m hp (by omega)
    have hsel := selectProps_city r req (maxPropertiesOf (req.limit.getD ("10"))) c ha hc hcne
    rw [handler_json r req _ hm hsel hf]
    have hpe : generateProperties r c (maxPropertiesOf (req.limit.getD ("10"))) = [] := by
      rw [hl]
      simp only [Option.getD_some]
      rw [hmax]
      exact hempty c m hmneg
    rw [hpe, hc]
    simp [jsOr, hcne]

/-- Witness for C10: count -3 directly, and limit -5 over HTTP. -/
theorem C10_witness :
    (-3 : ℤ) < 0 ∧ reqNeg.method = "GET" ∧ reqNeg.city = some ("Orlando") ∧ "Orlando" ≠ "" ∧
    reqNeg.all ≠ some ("true") ∧ reqNeg.format ≠ some ("csv") ∧
    reqNeg.limit = some ("-5") ∧ jsParseInt ("-5") = some (-5) ∧ (-5 : ℤ) < 0 ∧
    (generateProperties r0 ("Tampa") (-3) = [] ∧
      handler r0 reqNeg = ⟨200, none, none, ResBody.ok true 0 ("Orlando") []⟩) :=
  ⟨by decide, rfl, rfl, by decide, by decide, by decide, rfl, by decide, by decide,
   C10_negative_count_empty r0 ("Tampa") (-3) (by decide) reqNeg ("Orlando") ("-5") (-5)
     rfl rfl (by decide) (by decide) (by decide) rfl (by decide) (by decide)⟩

end Scraper
